import Mathlib

/-!
Verification of the simulation/scaling core of `src/scene_builder.ts`
(solar-system visualiser). JavaScript numbers are modelled as exact reals
plus the IEEE-754 special values +Infinity, -Infinity and NaN (type
`JsNum`); wherever the source only ever produces finite values (clock
timestamps, descriptor fields) plain reals are used.
-/

namespace SceneBuilder

/-- Constant `SUN_RADIUS = 696340` from the source. -/
def SUN_RADIUS : ℝ := 696340

/-- Constant `PLANET_SCALE = 4` from the source. -/
def PLANET_SCALE : ℝ := 4

/-- Constant `DISTANCE_SCALE = 10` from the source. -/
def DISTANCE_SCALE : ℝ := 10

/-- Function `compressSize` from the source:
`Math.pow(input, 1 / compressionAmount) + SUN_RADIUS - Math.pow(SUN_RADIUS, 1 / compressionAmount)`.
`Math.pow` on a nonnegative base agrees with `Real.rpow`; every claim about
this function restricts the input to nonnegative values. The module-level
variable `compressionAmount` is passed explicitly. -/
noncomputable def compressSize (compressionAmount input : ℝ) : ℝ :=
  input ^ (1 / compressionAmount) + SUN_RADIUS - SUN_RADIUS ^ (1 / compressionAmount)

/-- Distance computation from `createPlanet`:
`(planet.distance / 1000 + SUN_RADIUS) * DISTANCE_SCALE`. -/
noncomputable def adjustedDistance (distance : ℝ) : ℝ :=
  (distance / 1000 + SUN_RADIUS) * DISTANCE_SCALE

/-- Radius computation from `createPlanet`: `planet.radius * 0.5 * PLANET_SCALE`. -/
noncomputable def planetRadius (radius : ℝ) : ℝ :=
  radius * 0.5 * PLANET_SCALE

/-- Display geometry derived by `createPlanet` for a body: the sphere-geometry
radius `compressSize(planetRadius)` and the display distance
`adjustedDistance` (which is also stored into `userData.distance`). -/
noncomputable def createPlanetDisplay (compressionAmount radius distance : ℝ) : ℝ × ℝ :=
  (compressSize compressionAmount (planetRadius radius), adjustedDistance distance)

/-- JavaScript IEEE-754 double, modelled as an exact real together with the
special values +Infinity, -Infinity and NaN. Rounding of finite values is not
modelled (finite arithmetic is exact); signed zero is identified with zero,
with the positive-zero convention for division (matching the source, where
every zero divisor arises as a positive-zero product such as `0 * 60`). -/
inductive JsNum : Type where
  | fin : ℝ → JsNum
  | posInf : JsNum
  | negInf : JsNum
  | nan : JsNum

/-- Addition of JavaScript numbers (IEEE-754: NaN propagates, opposite
infinities give NaN). -/
noncomputable def JsNum.add : JsNum → JsNum → JsNum
  | .fin x, .fin y => .fin (x + y)
  | .fin _, .posInf => .posInf
  | .fin _, .negInf => .negInf
  | .posInf, .fin _ => .posInf
  | .posInf, .posInf => .posInf
  | .negInf, .fin _ => .negInf
  | .negInf, .negInf => .negInf
  | _, _ => .nan

/-- Multiplication of JavaScript numbers (IEEE-754: NaN propagates, infinity
times zero is NaN, infinity times a nonzero finite value keeps the sign
rule). -/
noncomputable def JsNum.mul : JsNum → JsNum → JsNum
  | .fin x, .fin y => .fin (x * y)
  | .fin x, .posInf => if 0 < x then .posInf else if x < 0 then .negInf else .nan
  | .fin x, .negInf => if 0 < x then .negInf else if x < 0 then .posInf else .nan
  | .posInf, .fin y => if 0 < y then .posInf else if y < 0 then .negInf else .nan
  | .negInf, .fin y => if 0 < y then .negInf else if y < 0 then .posInf else .nan
  | .posInf, .posInf => .posInf
  | .posInf, .negInf => .negInf
  | .negInf, .posInf => .negInf
  | .negInf, .negInf => .posInf
  | _, _ => .nan

/-- Division of JavaScript numbers (IEEE-754: a nonzero finite value divided by
zero is a signed infinity, zero divided by zero is NaN, NaN propagates). -/
noncomputable def JsNum.div : JsNum → JsNum → JsNum
  | .fin x, .fin y =>
      if y = 0 then (if 0 < x then .posInf else if x < 0 then .negInf else .nan)
      else .fin (x / y)
  | .fin _, .posInf => .fin 0
  | .fin _, .negInf => .fin 0
  | .posInf, .fin y => if 0 ≤ y then .posInf else .negInf
  | .negInf, .fin y => if 0 ≤ y then .negInf else .posInf
  | _, _ => .nan

/-- Cosine on JavaScript numbers: `Math.cos` returns NaN on NaN and on
infinite arguments. -/
noncomputable def JsNum.cos : JsNum → JsNum
  | .fin x => .fin (Real.cos x)
  | _ => .nan

/-- Sine on JavaScript numbers: `Math.sin` returns NaN on NaN and on infinite
arguments. -/
noncomputable def JsNum.sin : JsNum → JsNum
  | .fin x => .fin (Real.sin x)
  | _ => .nan

/-- Value stored in `userData.rotationPeriod`: `data.sideralRotation` from the
fetched JSON may be a number, `null`, or absent (undefined). -/
inductive JsVal : Type where
  | num : JsNum → JsVal
  | null : JsVal
  | undef : JsVal

/-- Numeric coercion applied by JavaScript arithmetic to the stored rotation
period: `null * 60` coerces `null` to 0, `undefined * 60` gives NaN. -/
noncomputable def JsVal.toNum : JsVal → JsNum
  | .num n => n
  | .null => .fin 0
  | .undef => .nan

/-- Per-body mutable state carried by a planet mesh: the `userData` fields
written by `createPlanet` (`orbitalPeriod`, `rotationPeriod`,
`distance = adjustedDistance`, `orbitAngle`, `rotationAngle`) together with
the mesh transform fields written by `updatePlanetPositions` (`position.x/y/z`
and `rotation.y`). `orbitalPeriod` and `distance` are plain numbers in the
source (the Sun uses 0 and the API's `sideralOrbit` is a number), so they are
reals; `rotationPeriod` may be null or absent. -/
structure PlanetMesh : Type where
  orbitalPeriod : ℝ
  rotationPeriod : JsVal
  distance : ℝ
  orbitAngle : JsNum
  rotationAngle : JsNum
  posX : JsNum
  posY : JsNum
  posZ : JsNum
  rotY : JsNum

/-- Body of the `forEach` in `updatePlanetPositions`, applied to one mesh:
`orbitAngle += (2π) / (orbitalPeriod * 60) * timeFactor`, then
`position.x = cos(orbitAngle) * distance` and
`position.z = sin(orbitAngle) * distance`, then
`rotationAngle += (2π) / (rotationPeriod * 60) * timeFactor` and
`rotation.y = rotationAngle`, and finally, when `orbitalPeriod === 0`,
`position.set(0, 0, 0)` overwrites the position. -/
noncomputable def updateMesh (timeFactor : JsNum) (m : PlanetMesh) : PlanetMesh :=
  let twoPi : JsNum := .fin (2 * Real.pi)
  let orbitAngle :=
    m.orbitAngle.add ((twoPi.div ((JsNum.fin m.orbitalPeriod).mul (.fin 60))).mul timeFactor)
  let posX := orbitAngle.cos.mul (.fin m.distance)
  let posZ := orbitAngle.sin.mul (.fin m.distance)
  let rotationAngle :=
    m.rotationAngle.add ((twoPi.div (m.rotationPeriod.toNum.mul (.fin 60))).mul timeFactor)
  if m.orbitalPeriod = 0 then
    { m with orbitAngle := orbitAngle, rotationAngle := rotationAngle, rotY := rotationAngle,
             posX := .fin 0, posY := .fin 0, posZ := .fin 0 }
  else
    { m with orbitAngle := orbitAngle, rotationAngle := rotationAngle, rotY := rotationAngle,
             posX := posX, posZ := posZ }

/-- Function `updatePlanetPositions` from the source: the update applied to
every mesh in `planetMeshes`. -/
noncomputable def updatePlanetPositions (timeFactor : JsNum) (meshes : List PlanetMesh) :
    List PlanetMesh :=
  meshes.map (updateMesh timeFactor)

/-- Module-level clock state of `animate`: the `lastTime` variable
(milliseconds, finite since it comes from `Date.now()`). -/
structure ClockState : Type where
  lastTime : ℝ

/-- Clock portion of `animate`:
`deltaTime = (now - lastTime) / 1000`, `lastTime = now`,
`timeFactor = deltaTime * orbitalSpeed`. The rendering and camera calls are
external collaborators; the returned pair is the produced `timeFactor` and
the updated clock state. -/
noncomputable def animateTick (now orbitalSpeed : ℝ) (st : ClockState) : ℝ × ClockState :=
  (((now - st.lastTime) / 1000) * orbitalSpeed, ⟨now⟩)

/-- Handler `updateCompressionAmount` from the source, restricted to its
effect on simulation state: `compressionAmount = parseFloat(event.target.value)`
stores the parsed value (which may be NaN or any float) unconditionally. The
DOM-label update and the per-mesh rescale are render-side; the rescale factor
is modelled by `newScale`. -/
noncomputable def updateCompressionAmount (parsed : JsNum) : JsNum :=
  parsed

/-- Rescale factor computed by the handler for each mesh:
`compressSize(planetMesh.userData.radius) / planetMesh.userData.radius`
(evaluated under the ordinary finite-parameter path). -/
noncomputable def newScale (compressionAmount radius : ℝ) : ℝ :=
  compressSize compressionAmount radius / radius

/-- Predicate formalising the spec's valid compression parameter: a finite
scalar that is at least 1. -/
def validCompression : JsNum → Prop
  | .fin x => 1 ≤ x
  | _ => False

/-- C3: for every physicalSize ≥ 0, compressSize with compression parameter 1 is
the identity. -/
theorem compressSize_one_identity (x : ℝ) (hx : 0 ≤ x) :
    compressSize 1 x = x := by
  unfold compressSize
  norm_num

/-- Witness for `compressSize_one_identity` at the concrete input 2. -/
theorem compressSize_one_identity_witness :
    (0:ℝ) ≤ 2 ∧ compressSize 1 2 = 2 :=
  ⟨by norm_num, compressSize_one_identity 2 (by norm_num)⟩

/-- C4: for every fixed compression parameter k ≥ 1, compressSize is monotonically
non-decreasing in the physical size on nonnegative inputs. -/
theorem compressSize_monotone (k x y : ℝ) (hk : 1 ≤ k) (hx : 0 ≤ x) (hxy : x ≤ y) :
    compressSize k x ≤ compressSize k y := by
  unfold compressSize
  have hz : (0:ℝ) ≤ 1 / k := by positivity
  have := Real.rpow_le_rpow hx hxy hz
  linarith

/-- Witness for `compressSize_monotone` at k = 2, x = 1, y = 4. -/
theorem compressSize_monotone_witness :
    (1:ℝ) ≤ 2 ∧ (0:ℝ) ≤ 1 ∧ (1:ℝ) ≤ 4 ∧ compressSize 2 1 ≤ compressSize 2 4 :=
  ⟨by norm_num, by norm_num, by norm_num,
    compressSize_monotone 2 1 4 (by norm_num) (by norm_num) (by norm_num)⟩

/-- C10: for every compression parameter k ≥ 1, the reference scale (the Sun's
radius) is a fixed point of the compression function. -/
theorem compressSize_sun_radius_fixed (k : ℝ) (hk : 1 ≤ k) :
    compressSize k SUN_RADIUS = SUN_RADIUS := by
  unfold compressSize
  ring

/-- Witness for `compressSize_sun_radius_fixed` at k = 3. -/
theorem compressSize_sun_radius_fixed_witness :
    (1:ℝ) ≤ 3 ∧ compressSize 3 SUN_RADIUS = SUN_RADIUS :=
  ⟨by norm_num, compressSize_sun_radius_fixed 3 (by norm_num)⟩

/-- Display distance as the spec describes it, with the compression function
applied to the orbital distance using the same reference scale as for the
radius. Stated only for comparison with the code's `createPlanetDisplay`,
which applies no compression to the distance. -/
noncomputable def displayDistanceSpec (compressionAmount distance : ℝ) : ℝ :=
  compressSize compressionAmount (adjustedDistance distance)

/-- Concrete mesh for the Sun as built by `createPlanet` from `getSunData`:
`distance = 0`, `orbitalPeriod = 0`, `rotationPeriod = 25.38`, both angles
start at 0 and the initial position is `(adjustedDistance 0, 0, 0)`. -/
noncomputable def sunMesh : PlanetMesh where
  orbitalPeriod := 0
  rotationPeriod := .num (.fin 25.38)
  distance := adjustedDistance 0
  orbitAngle := .fin 0
  rotationAngle := .fin 0
  posX := .fin (adjustedDistance 0)
  posY := .fin 0
  posZ := .fin 0
  rotY := .fin 0

/-- Concrete mesh for Earth as built by `createPlanet` from the fetched data
(semi-major axis 149600000 km, radius 6371 km, orbital period 365.25 days,
rotation period about 24 hours). -/
noncomputable def earthMesh : PlanetMesh where
  orbitalPeriod := 365.25
  rotationPeriod := .num (.fin 24)
  distance := adjustedDistance 149600000
  orbitAngle := .fin 0
  rotationAngle := .fin 0
  posX := .fin (adjustedDistance 149600000)
  posY := .fin 0
  posZ := .fin 0
  rotY := .fin 0

/-- Concrete mesh for a body whose fetched `sideralRotation` is `null`
(tolerated by the formatting code, which prints `'Unknown'` for it). -/
noncomputable def nullRotMesh : PlanetMesh where
  orbitalPeriod := 100
  rotationPeriod := .null
  distance := 1000
  orbitAngle := .fin 0
  rotationAngle := .fin 0
  posX := .fin 1000
  posY := .fin 0
  posZ := .fin 0
  rotY := .fin 0

/-- Adding finite zero leaves every JavaScript number unchanged (also the
non-finite ones). -/
theorem JsNum.add_fin_zero : ∀ n : JsNum, n.add (.fin 0) = n
  | .fin _ => by simp [JsNum.add]
  | .posInf => rfl
  | .negInf => rfl
  | .nan => rfl

/-- Angle increment `2π / (p * 60) * t` evaluates to the expected finite value
when the period `p` is nonzero. -/
theorem increment_fin (p t : ℝ) (hp : p ≠ 0) :
    ((JsNum.fin (2 * Real.pi)).div ((JsNum.fin p).mul (.fin 60))).mul (.fin t)
      = .fin (2 * Real.pi / (p * 60) * t) := by
  have h60 : p * 60 ≠ 0 := mul_ne_zero hp (by norm_num)
  simp [JsNum.mul, JsNum.div, h60]

/-- Angle increment `2π / (p * 60) * t` with a zero period and a positive time
factor: the division yields +Infinity, which survives the multiplication. -/
theorem increment_zero_pos (t : ℝ) (ht : 0 < t) :
    ((JsNum.fin (2 * Real.pi)).div ((JsNum.fin 0).mul (.fin 60))).mul (.fin t) = .posInf := by
  simp [JsNum.mul, JsNum.div, Real.pi_pos, ht]

/-- Angle increment `2π / (p * 60) * t` with a zero period and a zero time
factor: +Infinity times 0 is NaN. -/
theorem increment_zero_zero :
    ((JsNum.fin (2 * Real.pi)).div ((JsNum.fin 0).mul (.fin 60))).mul (.fin 0) = .nan := by
  simp [JsNum.mul, JsNum.div, Real.pi_pos]

/-- C1 counterexample: on the central body (`orbitalPeriodDays == 0`), the
orbit angle accumulation is NOT skipped — one frame with time factor 1 runs
`orbitAngle += 2π / (0 * 60) * 1`, a division by zero that evaluates to
+Infinity, so the stored orbit angle changes from 0 to +Infinity. -/
theorem central_body_angle_updated_cx :
    (updateMesh (.fin 1) sunMesh).orbitAngle = .posInf ∧
    (updateMesh (.fin 1) sunMesh).orbitAngle ≠ sunMesh.orbitAngle := by
  have h : (updateMesh (.fin 1) sunMesh).orbitAngle = .posInf := by
    simp [updateMesh, sunMesh, increment_zero_pos, JsNum.add]
  exact ⟨h, by rw [h]; simp [sunMesh]⟩

/-- C1 (amended): for the central body (`orbitalPeriodDays == 0`), after every
frame the display position is pinned exactly at the origin, whatever the time
factor (the final `position.set(0, 0, 0)` overwrites the position computed
from the corrupted angle). -/
theorem central_body_position_pinned (tf : JsNum) (m : PlanetMesh)
    (h : m.orbitalPeriod = 0) :
    (updateMesh tf m).posX = .fin 0 ∧ (updateMesh tf m).posY = .fin 0 ∧
    (updateMesh tf m).posZ = .fin 0 := by
  simp [updateMesh, h]

/-- Witness for `central_body_position_pinned` on the Sun with time factor 1. -/
theorem central_body_position_pinned_witness :
    sunMesh.orbitalPeriod = 0 ∧
    ((updateMesh (.fin 1) sunMesh).posX = .fin 0 ∧
      (updateMesh (.fin 1) sunMesh).posY = .fin 0 ∧
      (updateMesh (.fin 1) sunMesh).posZ = .fin 0) :=
  ⟨rfl, central_body_position_pinned (.fin 1) sunMesh rfl⟩

/-- C2 counterexample: `animate` performs no clamping of the elapsed delta —
with `lastTime = 1000`, a frame at timestamp 0 and speed 1 yields
`timeFactor = (0 - 1000) / 1000 * 1 = -1`, a negative value, not 0. -/
theorem clock_regression_cx :
    (animateTick 0 1 ⟨1000⟩).1 = -1 ∧ (animateTick 0 1 ⟨1000⟩).1 ≠ 0 := by
  norm_num [animateTick]

/-- C2 (amended): when the new timestamp is earlier than the stored one and
the speed multiplier is positive, the produced time factor is strictly
negative (the delta is not clamped); no exception occurs and `lastTime` is
still updated to the new timestamp. -/
theorem clock_regression_negative (now last speed : ℝ) (h : now < last)
    (hs : 0 < speed) :
    (animateTick now speed ⟨last⟩).1 < 0 ∧
    (animateTick now speed ⟨last⟩).2.lastTime = now := by
  refine ⟨?_, rfl⟩
  show ((now - last) / 1000) * speed < 0
  exact mul_neg_of_neg_of_pos
    (div_neg_of_neg_of_pos (by linarith) (by norm_num)) hs

/-- Witness for `clock_regression_negative` at timestamps 1000 then 0, speed 1. -/
theorem clock_regression_negative_witness :
    (0:ℝ) < 1000 ∧ (0:ℝ) < 1 ∧
    ((animateTick 0 1 ⟨1000⟩).1 < 0 ∧ (animateTick 0 1 ⟨1000⟩).2.lastTime = 0) :=
  ⟨by norm_num, by norm_num, clock_regression_negative 0 1000 1 (by norm_num) (by norm_num)⟩

/-- C5 counterexample: a body whose fetched rotation period is `null` does NOT
keep its rotation angle fixed — `null` coerces to 0 in `rotationPeriod * 60`,
the division yields +Infinity, and one frame with time factor 1 drives the
stored rotation angle from 0 to +Infinity. -/
theorem null_rotation_angle_changed_cx :
    (updateMesh (.fin 1) nullRotMesh).rotationAngle = .posInf ∧
    (updateMesh (.fin 1) nullRotMesh).rotationAngle ≠ nullRotMesh.rotationAngle := by
  have h : (updateMesh (.fin 1) nullRotMesh).rotationAngle = .posInf := by
    norm_num [updateMesh, nullRotMesh, JsVal.toNum, increment_zero_pos, JsNum.add]
  exact ⟨h, by rw [h]; simp [nullRotMesh]⟩

/-- C5 (amended): a body with a known nonzero rotation period accumulates
`rotationAngle += (2π / (rotationPeriodHours * 60)) * timeFactor`; the update
never throws, but for a zero or unknown period it writes a non-finite value
into the rotation angle instead of leaving it unchanged. -/
theorem rotation_known_nonzero_accumulates (m : PlanetMesh) (r a t : ℝ)
    (hr : m.rotationPeriod.toNum = .fin r) (hr0 : r ≠ 0)
    (ha : m.rotationAngle = .fin a) :
    (updateMesh (.fin t) m).rotationAngle = .fin (a + 2 * Real.pi / (r * 60) * t) := by
  have hinc := increment_fin r t hr0
  by_cases hp : m.orbitalPeriod = 0 <;>
    simp [updateMesh, hp, hr, ha, hinc, JsNum.add]

/-- Witness for `rotation_known_nonzero_accumulates` on Earth with time
factor 1. -/
theorem rotation_known_nonzero_accumulates_witness :
    earthMesh.rotationPeriod.toNum = .fin 24 ∧ (24:ℝ) ≠ 0 ∧
    earthMesh.rotationAngle = .fin 0 ∧
    (updateMesh (.fin 1) earthMesh).rotationAngle
      = .fin (0 + 2 * Real.pi / (24 * 60) * 1) :=
  ⟨rfl, by norm_num, rfl,
    rotation_known_nonzero_accumulates earthMesh 24 0 1 rfl (by norm_num) rfl⟩

/-- C6: for an orbiting body (`orbitalPeriodDays ≠ 0`), one frame whose time
factor is exactly `orbitalPeriodDays * 60` advances the orbit angle by exactly
2π, and the display position computed from the new angle equals the previous
display position. -/
theorem orbit_full_period (m : PlanetMesh) (a : ℝ) (hp : m.orbitalPeriod ≠ 0)
    (ha : m.orbitAngle = .fin a)
    (hx : m.posX = .fin (Real.cos a * m.distance))
    (hz : m.posZ = .fin (Real.sin a * m.distance)) :
    (updateMesh (.fin (m.orbitalPeriod * 60)) m).orbitAngle = .fin (a + 2 * Real.pi) ∧
    (updateMesh (.fin (m.orbitalPeriod * 60)) m).posX = m.posX ∧
    (updateMesh (.fin (m.orbitalPeriod * 60)) m).posZ = m.posZ := by
  have h60 : m.orbitalPeriod * 60 ≠ 0 := mul_ne_zero hp (by norm_num)
  have hinc : ((JsNum.fin (2 * Real.pi)).div
        ((JsNum.fin m.orbitalPeriod).mul (.fin 60))).mul (.fin (m.orbitalPeriod * 60))
      = .fin (2 * Real.pi) := by
    rw [increment_fin _ _ hp, div_mul_cancel₀ _ h60]
  simp [updateMesh, hp, ha, hx, hz, hinc, JsNum.add, JsNum.cos, JsNum.sin,
    Real.cos_add_two_pi, Real.sin_add_two_pi]
  exact ⟨rfl, rfl⟩

/-- Witness for `orbit_full_period` on Earth starting at orbit angle 0. -/
theorem orbit_full_period_witness :
    earthMesh.orbitalPeriod ≠ 0 ∧
    ((updateMesh (.fin (earthMesh.orbitalPeriod * 60)) earthMesh).orbitAngle
        = .fin (0 + 2 * Real.pi) ∧
      (updateMesh (.fin (earthMesh.orbitalPeriod * 60)) earthMesh).posX = earthMesh.posX ∧
      (updateMesh (.fin (earthMesh.orbitalPeriod * 60)) earthMesh).posZ = earthMesh.posZ) :=
  ⟨by norm_num [earthMesh],
    orbit_full_period earthMesh 0 (by norm_num [earthMesh]) rfl
      (by simp [earthMesh]) (by simp [earthMesh])⟩

/-- C7 counterexample: the compression-change handler performs no clamping —
a parsed input of 0.5 is stored as 0.5, which violates the invariant that the
stored compression parameter is a finite scalar at least 1. -/
theorem compression_not_clamped_cx :
    updateCompressionAmount (.fin (1/2)) = .fin (1/2) ∧
    ¬ validCompression (updateCompressionAmount (.fin (1/2))) := by
  refine ⟨rfl, ?_⟩
  norm_num [updateCompressionAmount, validCompression]

/-- C7 (amended): the handler stores `parseFloat`'s result unconditionally and
never throws; a parsed value below 1 is stored below 1 and a NaN parse result
is stored as NaN, so the stored parameter is not kept inside the valid range. -/
theorem compression_stored_unclamped (v : ℝ) (hv : v < 1) :
    updateCompressionAmount (.fin v) = .fin v ∧
    ¬ validCompression (updateCompressionAmount (.fin v)) ∧
    ¬ validCompression (updateCompressionAmount .nan) := by
  refine ⟨rfl, ?_, ?_⟩
  · simp only [updateCompressionAmount, validCompression, not_le]
    exact hv
  · simp [updateCompressionAmount, validCompression]

/-- Witness for `compression_stored_unclamped` at the parsed value 0.5. -/
theorem compression_stored_unclamped_witness :
    (1/2 : ℝ) < 1 ∧
    (updateCompressionAmount (.fin (1/2)) = .fin (1/2) ∧
      ¬ validCompression (updateCompressionAmount (.fin (1/2))) ∧
      ¬ validCompression (updateCompressionAmount .nan)) :=
  ⟨by norm_num, compression_stored_unclamped (1/2) (by norm_num)⟩

/-- C8 counterexample: the display distance `createPlanet` derives for Earth
at compression parameter 2 is not the compressed scaled distance — the
compression function is not applied to the orbital distance. -/
theorem distance_not_compressed_cx :
    (createPlanetDisplay 2 6371 149600000).2 ≠ displayDistanceSpec 2 149600000 := by
  have hL : (createPlanetDisplay 2 6371 149600000).2 = 8459400 := by
    norm_num [createPlanetDisplay, adjustedDistance, SUN_RADIUS, DISTANCE_SCALE]
  have e1 : adjustedDistance 149600000 = 8459400 := by
    norm_num [adjustedDistance, SUN_RADIUS, DISTANCE_SCALE]
  have hR : displayDistanceSpec 2 149600000
      = Real.sqrt 8459400 + 696340 - Real.sqrt 696340 := by
    unfold displayDistanceSpec compressSize SUN_RADIUS
    rw [e1, Real.sqrt_eq_rpow, Real.sqrt_eq_rpow]
  have h1 : Real.sqrt 8459400 < 3000 := by
    have h := Real.sqrt_lt_sqrt (by norm_num : (0:ℝ) ≤ 8459400)
      (by norm_num : (8459400:ℝ) < 3000 ^ 2)
    rwa [Real.sqrt_sq (by norm_num : (0:ℝ) ≤ 3000)] at h
  have h2 : 0 ≤ Real.sqrt 696340 := Real.sqrt_nonneg _
  rw [hL, hR]
  intro hEq
  linarith

/-- C8 (amended): `createPlanet` applies the compression function (with the
fixed reference scale) to the body's radius only; the display distance is the
uncompressed `(distance / 1000 + SUN_RADIUS) * DISTANCE_SCALE` and does not
depend on the compression parameter. -/
theorem compression_applied_to_radius_only (k1 k2 radius distance : ℝ) :
    (createPlanetDisplay k1 radius distance).1 = compressSize k1 (planetRadius radius) ∧
    (createPlanetDisplay k1 radius distance).2 = adjustedDistance distance ∧
    (createPlanetDisplay k1 radius distance).2 = (createPlanetDisplay k2 radius distance).2 :=
  ⟨rfl, rfl, rfl⟩

/-- Angle increment `2π / (p * 60) * 0` with a nonzero period evaluates to
finite zero. -/
theorem increment_fin_time_zero (p : ℝ) (hp : p ≠ 0) :
    ((JsNum.fin (2 * Real.pi)).div ((JsNum.fin p).mul (.fin 60))).mul (.fin 0) = .fin 0 := by
  rw [increment_fin _ _ hp, mul_zero]

/-- C9 counterexample: with speed multiplier 0 the tick produces time factor 0,
but the Sun's orbit angle still changes — `2π / (0 * 60)` is +Infinity and
+Infinity times the zero time factor is NaN, which is then added to the
angle. -/
theorem speed_zero_sun_angle_changes_cx :
    (animateTick 1000 0 ⟨0⟩).1 = 0 ∧
    (updateMesh (.fin 0) sunMesh).orbitAngle = .nan ∧
    (updateMesh (.fin 0) sunMesh).orbitAngle ≠ sunMesh.orbitAngle := by
  have h : (updateMesh (.fin 0) sunMesh).orbitAngle = .nan := by
    simp [updateMesh, sunMesh, increment_zero_zero, JsNum.add]
  exact ⟨by simp [animateTick], h, by rw [h]; simp [sunMesh]⟩

/-- C9 (amended): with speed multiplier 0 every tick produces time factor 0,
and a frame with time factor 0 leaves the orbit and rotation angles of every
body with a nonzero orbital period and a known nonzero rotation period
unchanged (the central body's orbit angle is instead corrupted to NaN, per the
counterexample). -/
theorem speed_zero_freezes (now last : ℝ) (m : PlanetMesh) (r : ℝ)
    (hp : m.orbitalPeriod ≠ 0) (hr : m.rotationPeriod.toNum = .fin r)
    (hr0 : r ≠ 0) :
    (animateTick now 0 ⟨last⟩).1 = 0 ∧
    (updateMesh (.fin 0) m).orbitAngle = m.orbitAngle ∧
    (updateMesh (.fin 0) m).rotationAngle = m.rotationAngle := by
  refine ⟨by simp [animateTick], ?_, ?_⟩
  · simp [updateMesh, hp, increment_fin_time_zero _ hp, JsNum.add_fin_zero]
  · simp [updateMesh, hp, hr, increment_fin_time_zero _ hr0, JsNum.add_fin_zero]

/-- Witness for `speed_zero_freezes` on Earth after 5000 ms of wall time at
speed 0. -/
theorem speed_zero_freezes_witness :
    earthMesh.orbitalPeriod ≠ 0 ∧ earthMesh.rotationPeriod.toNum = .fin 24 ∧ (24:ℝ) ≠ 0 ∧
    ((animateTick 5000 0 ⟨0⟩).1 = 0 ∧
      (updateMesh (.fin 0) earthMesh).orbitAngle = earthMesh.orbitAngle ∧
      (updateMesh (.fin 0) earthMesh).rotationAngle = earthMesh.rotationAngle) :=
  ⟨by norm_num [earthMesh], rfl, by norm_num,
    speed_zero_freezes 5000 0 earthMesh 24 (by norm_num [earthMesh]) rfl (by norm_num)⟩

end SceneBuilder
